import Mathlib

/-!
Shallow embedding of the trading simulator's portfolio core
(src/config.py, src/portfolio.py, src/trading_logic.py).

Python floats are modelled as exact rationals.  Timestamps (entry_date,
timestamp fields), logging and file persistence, which no claim concerns,
are omitted.  The Python dict of open positions is modelled as an
association list in insertion order (dict insertion appends a new key,
`del` removes the key); Python's `Optional` becomes `Option`.
-/

/-- Configuration constant INITIAL_BUDGET from src/config.py. -/
def INITIAL_BUDGET : ℚ := 1000

/-- Configuration constant POSITION_SIZE from src/config.py. -/
def POSITION_SIZE : ℚ := 10

/-- Configuration constant MAX_POSITIONS = int(INITIAL_BUDGET / POSITION_SIZE)
from src/config.py (Python int() truncation on a positive rational is floor). -/
def MAX_POSITIONS : Nat := (INITIAL_BUDGET / POSITION_SIZE).floor.toNat

/-- Configuration constant SHORT_TRIGGER from src/config.py. -/
def SHORT_TRIGGER : ℚ := 10 / 100

/-- Configuration constant BUY_TRIGGER from src/config.py. -/
def BUY_TRIGGER : ℚ := -(5 / 100)

/-- Configuration constant TAKE_PROFIT from src/config.py. -/
def TAKE_PROFIT : ℚ := 3 / 100

/-- Configuration constant STOP_LOSS from src/config.py. -/
def STOP_LOSS : ℚ := -(5 / 100)

/-- Configuration constant LOOKBACK_DAYS from src/config.py. -/
def LOOKBACK_DAYS : Nat := 7

/-- PositionType enum from src/portfolio.py. -/
inductive PositionType where
  | long
  | short
  deriving DecidableEq

/-- Position dataclass from src/portfolio.py (entry_date omitted). -/
structure Position where
  ticker : String
  position_type : PositionType
  entry_price : ℚ
  quantity : ℚ
  stop_loss : ℚ
  take_profit : ℚ
  deriving DecidableEq

/-- Trade dataclass from src/portfolio.py (timestamp omitted). -/
structure Trade where
  ticker : String
  action : String
  price : ℚ
  quantity : ℚ
  profit_loss : ℚ
  reason : String
  deriving DecidableEq

/-- Portfolio state from src/portfolio.py: cash, the dict of open positions
(as an insertion-ordered association list) and the trade history. -/
structure Portfolio where
  cash : ℚ
  positions : List (String × Position)
  trades : List Trade
  deriving DecidableEq

/-- Lookup in an association list: `ticker in positions` and
`positions[ticker]` on a Python dict. -/
def alist_find {α : Type} : List (String × α) → String → Option α
  | [], _ => none
  | kv :: rest, k => if kv.1 = k then some kv.2 else alist_find rest k

/-- Key removal from an association list: `del positions[ticker]` on a
Python dict (the key occurs at most once in any reachable state). -/
def alist_erase {α : Type} : List (String × α) → String → List (String × α)
  | [], _ => []
  | kv :: rest, k => if kv.1 = k then rest else kv :: alist_erase rest k

/-- Portfolio.can_open_position from src/portfolio.py:
`self.cash >= POSITION_SIZE and len(self.positions) < MAX_POSITIONS`. -/
def Portfolio.can_open_position (p : Portfolio) : Bool :=
  decide (POSITION_SIZE ≤ p.cash) && decide (p.positions.length < MAX_POSITIONS)

/-- Portfolio.open_long_position from src/portfolio.py.  Returns the new
state and the boolean result. -/
def Portfolio.open_long_position (p : Portfolio) (ticker : String) (price : ℚ) :
    Portfolio × Bool :=
  if ¬ p.can_open_position then (p, false)
  else if (alist_find p.positions ticker).isSome then (p, false)
  else
    let quantity := POSITION_SIZE / price
    let stop_loss := price * (1 + STOP_LOSS)
    let take_profit := price * (1 + TAKE_PROFIT)
    let position : Position :=
      { ticker := ticker, position_type := PositionType.long, entry_price := price,
        quantity := quantity, stop_loss := stop_loss, take_profit := take_profit }
    let trade : Trade :=
      { ticker := ticker, action := "BUY", price := price, quantity := quantity,
        profit_loss := 0, reason := "Price dropped 5% - buying opportunity" }
    ({ cash := p.cash - POSITION_SIZE,
       positions := p.positions ++ [(ticker, position)],
       trades := p.trades ++ [trade] }, true)

/-- Portfolio.open_short_position from src/portfolio.py. -/
def Portfolio.open_short_position (p : Portfolio) (ticker : String) (price : ℚ) :
    Portfolio × Bool :=
  if ¬ p.can_open_position then (p, false)
  else if (alist_find p.positions ticker).isSome then (p, false)
  else
    let quantity := POSITION_SIZE / price
    let stop_loss := price * (1 - STOP_LOSS)
    let take_profit := price * (1 - TAKE_PROFIT)
    let position : Position :=
      { ticker := ticker, position_type := PositionType.short, entry_price := price,
        quantity := quantity, stop_loss := stop_loss, take_profit := take_profit }
    let trade : Trade :=
      { ticker := ticker, action := "SHORT", price := price, quantity := quantity,
        profit_loss := 0, reason := "Price jumped 10% - shorting opportunity" }
    ({ cash := p.cash - POSITION_SIZE,
       positions := p.positions ++ [(ticker, position)],
       trades := p.trades ++ [trade] }, true)

/-- Portfolio.close_position from src/portfolio.py. -/
def Portfolio.close_position (p : Portfolio) (ticker : String) (current_price : ℚ)
    (reason : String) : Portfolio × Bool :=
  match alist_find p.positions ticker with
  | none => (p, false)
  | some position =>
    let profit_loss :=
      match position.position_type with
      | PositionType.long => (current_price - position.entry_price) * position.quantity
      | PositionType.short => (position.entry_price - current_price) * position.quantity
    let action :=
      match position.position_type with
      | PositionType.long => "SELL"
      | PositionType.short => "COVER"
    let trade : Trade :=
      { ticker := ticker, action := action, price := current_price,
        quantity := position.quantity, profit_loss := profit_loss, reason := reason }
    ({ cash := p.cash + (POSITION_SIZE + profit_loss),
       positions := alist_erase p.positions ticker,
       trades := p.trades ++ [trade] }, true)

/-- Portfolio.should_close_position from src/portfolio.py. -/
def Portfolio.should_close_position (p : Portfolio) (ticker : String)
    (current_price : ℚ) : Option String :=
  match alist_find p.positions ticker with
  | none => none
  | some position =>
    match position.position_type with
    | PositionType.long =>
      if position.take_profit ≤ current_price then some "Take profit reached"
      else if current_price ≤ position.stop_loss then some "Stop loss triggered"
      else none
    | PositionType.short =>
      if current_price ≤ position.take_profit then some "Take profit reached"
      else if position.stop_loss ≤ current_price then some "Stop loss triggered"
      else none

/-- The value contributed by one open position in
Portfolio.get_portfolio_value (src/portfolio.py), given the looked-up
current price when present. -/
def position_value (position : Position) (priceOpt : Option ℚ) : ℚ :=
  match priceOpt with
  | some current_price =>
    match position.position_type with
    | PositionType.long => current_price * position.quantity
    | PositionType.short =>
        POSITION_SIZE + (position.entry_price - current_price) * position.quantity
  | none => POSITION_SIZE

/-- Portfolio.get_portfolio_value from src/portfolio.py. -/
def Portfolio.get_portfolio_value (p : Portfolio)
    (current_prices : List (String × ℚ)) : ℚ :=
  p.cash + (p.positions.map
    (fun kv => position_value kv.2 (alist_find current_prices kv.1))).sum

/-- The dict returned by Portfolio.get_statistics (src/portfolio.py). -/
structure Statistics where
  total_trades : Nat
  profitable_trades : Nat
  losing_trades : Nat
  win_rate : ℚ
  total_profit : ℚ
  cash : ℚ
  active_positions : Nat
  deriving DecidableEq

/-- Portfolio.get_statistics from src/portfolio.py. -/
def Portfolio.get_statistics (p : Portfolio) : Statistics :=
  let total_trades := p.trades.length
  let profitable_trades := (p.trades.filter (fun t => decide (0 < t.profit_loss))).length
  let losing_trades := (p.trades.filter (fun t => decide (t.profit_loss < 0))).length
  let total_profit := (p.trades.map Trade.profit_loss).sum
  let win_rate :=
    if 0 < total_trades then (profitable_trades : ℚ) / (total_trades : ℚ) else 0
  { total_trades := total_trades, profitable_trades := profitable_trades,
    losing_trades := losing_trades, win_rate := win_rate,
    total_profit := total_profit, cash := p.cash,
    active_positions := p.positions.length }

/-- One mutating portfolio operation, for sequences of calls. -/
inductive Op where
  | openLong (ticker : String) (price : ℚ)
  | openShort (ticker : String) (price : ℚ)
  | closePos (ticker : String) (price : ℚ) (reason : String)
  deriving DecidableEq

/-- The ticker an operation addresses. -/
def Op.ticker : Op → String
  | Op.openLong t _ => t
  | Op.openShort t _ => t
  | Op.closePos t _ _ => t

/-- Apply one operation to a portfolio, keeping the resulting state. -/
def applyOp (p : Portfolio) : Op → Portfolio
  | Op.openLong t price => (p.open_long_position t price).1
  | Op.openShort t price => (p.open_short_position t price).1
  | Op.closePos t price reason => (p.close_position t price reason).1

/-- Apply a sequence of operations in order. -/
def applyOps (p : Portfolio) (ops : List Op) : Portfolio :=
  ops.foldl applyOp p

/-- The initial portfolio state of Portfolio.__init__ with no persisted
files: cash = INITIAL_BUDGET, no positions, no trades. -/
def initial_portfolio : Portfolio :=
  { cash := INITIAL_BUDGET, positions := [], trades := [] }

/-- The market-data collaborator (src/data_fetcher.py) as an oracle: the
ticker universe, per-ticker fetched close series, per-ticker current price. -/
structure MarketData where
  tickers : List String
  stock_data : String → Option (List ℚ)
  current_price : String → Option ℚ

/-- DataFetcher.calculate_price_change from src/data_fetcher.py on the
Close column: None when fewer than days+1 rows, else
(last − row at index len−(days+1)) / past. -/
def calculate_price_change (closes : List ℚ) (days : Nat) : Option ℚ :=
  if closes.length < days + 1 then none
  else
    match closes.getLast? with
    | none => none
    | some current_price =>
      match closes[closes.length - (days + 1)]? with
      | none => none
      | some past_price => some ((current_price - past_price) / past_price)

/-- get_current_price combined with the caller's `if current_price:`
truthiness test (src/trading_logic.py): a fetched price of 0.0 is falsy in
Python and is skipped exactly like a missing price. -/
def fetched_price (md : MarketData) (ticker : String) : Option ℚ :=
  match md.current_price ticker with
  | some price => if price = 0 then none else some price
  | none => none

/-- One ticker's step of TradingEngine.scan_for_opportunities
(src/trading_logic.py), accumulating (long_candidates, short_candidates). -/
def scan_step (port : Portfolio) (md : MarketData)
    (acc : List String × List String) (ticker : String) : List String × List String :=
  if (alist_find port.positions ticker).isSome then acc
  else
    match md.stock_data ticker with
    | none => acc
    | some closes =>
      match calculate_price_change closes LOOKBACK_DAYS with
      | none => acc
      | some price_change =>
        if SHORT_TRIGGER ≤ price_change then (acc.1, acc.2 ++ [ticker])
        else if price_change ≤ BUY_TRIGGER then (acc.1 ++ [ticker], acc.2)
        else acc

/-- TradingEngine.scan_for_opportunities from src/trading_logic.py. -/
def scan_for_opportunities (port : Portfolio) (md : MarketData) :
    List String × List String :=
  md.tickers.foldl (scan_step port md) ([], [])

/-- The long half of TradingEngine.execute_trades (src/trading_logic.py):
iterate candidates, break when capacity is gone, skip an unfetchable price. -/
def execute_long_trades (md : MarketData) : Portfolio → List String → Portfolio
  | port, [] => port
  | port, ticker :: rest =>
    if ¬ port.can_open_position then port
    else
      match fetched_price md ticker with
      | some current_price =>
          execute_long_trades md (port.open_long_position ticker current_price).1 rest
      | none => execute_long_trades md port rest

/-- The short half of TradingEngine.execute_trades (src/trading_logic.py). -/
def execute_short_trades (md : MarketData) : Portfolio → List String → Portfolio
  | port, [] => port
  | port, ticker :: rest =>
    if ¬ port.can_open_position then port
    else
      match fetched_price md ticker with
      | some current_price =>
          execute_short_trades md (port.open_short_position ticker current_price).1 rest
      | none => execute_short_trades md port rest

/-- TradingEngine.execute_trades from src/trading_logic.py: long candidates
first, then short candidates. -/
def execute_trades (md : MarketData) (port : Portfolio)
    (long_candidates short_candidates : List String) : Portfolio :=
  execute_short_trades md (execute_long_trades md port long_candidates) short_candidates

/-- The positions_to_close list gathered by
TradingEngine.check_exit_conditions (src/trading_logic.py) before any close. -/
def positions_to_close (port : Portfolio) (md : MarketData) :
    List (String × ℚ × String) :=
  port.positions.filterMap (fun kv =>
    match fetched_price md kv.1 with
    | some current_price =>
      match port.should_close_position kv.1 current_price with
      | some reason => some (kv.1, current_price, reason)
      | none => none
    | none => none)

/-- TradingEngine.check_exit_conditions from src/trading_logic.py: gather
the triggered positions on the current state, then close each in turn. -/
def check_exit_conditions (port : Portfolio) (md : MarketData) : Portfolio :=
  (positions_to_close port md).foldl
    (fun p c => (p.close_position c.1 c.2.1 c.2.2).1) port

/-- TradingEngine.run_trading_cycle from src/trading_logic.py, restricted to
its portfolio effect: exit checks first, then the scan, then execution
(persistence and logging omitted). -/
def run_trading_cycle (port : Portfolio) (md : MarketData) : Portfolio :=
  let port1 := check_exit_conditions port md
  let cands := scan_for_opportunities port1 md
  execute_trades md port1 cands.1 cands.2

/-- Dispatcher over the two opening operations, used to state round-trip
properties once for both directions. -/
def open_position (dir : PositionType) (p : Portfolio) (ticker : String) (price : ℚ) :
    Portfolio × Bool :=
  match dir with
  | PositionType.long => p.open_long_position ticker price
  | PositionType.short => p.open_short_position ticker price

/-- The realized profit/loss close_position computes for a position at an
exit price (src/portfolio.py lines 210-214). -/
def close_profit (position : Position) (current_price : ℚ) : ℚ :=
  match position.position_type with
  | PositionType.long => (current_price - position.entry_price) * position.quantity
  | PositionType.short => (position.entry_price - current_price) * position.quantity

/-- The action string close_position records (src/portfolio.py lines 212, 215). -/
def close_action (position : Position) : String :=
  match position.position_type with
  | PositionType.long => "SELL"
  | PositionType.short => "COVER"

/-- MAX_POSITIONS evaluates to 100, as the spec's scenario states. -/
theorem MAX_POSITIONS_eq : MAX_POSITIONS = 100 := by
  have h : INITIAL_BUDGET / POSITION_SIZE = (100 : ℚ) := by
    norm_num [INITIAL_BUDGET, POSITION_SIZE]
  rw [MAX_POSITIONS, h, Rat.floor_def']
  rfl

theorem alist_find_append {α : Type} (l l2 : List (String × α)) (k : String) :
    alist_find (l ++ l2) k =
      match alist_find l k with
      | some v => some v
      | none => alist_find l2 k := by
  induction l with
  | nil => simp [alist_find]
  | cons kv rest ih =>
    by_cases h : kv.1 = k <;> simp [alist_find, h, ih]

theorem alist_find_eq_none_iff {α : Type} (l : List (String × α)) (k : String) :
    alist_find l k = none ↔ k ∉ l.map Prod.fst := by
  induction l with
  | nil => simp [alist_find]
  | cons kv rest ih =>
    by_cases h : kv.1 = k
    · subst h
      simp [alist_find]
    · simp [alist_find, h, Ne.symm h, ih]

theorem alist_erase_find_ne {α : Type} (l : List (String × α)) (k k' : String)
    (h : k' ≠ k) : alist_find (alist_erase l k) k' = alist_find l k' := by
  induction l with
  | nil => simp [alist_erase]
  | cons kv rest ih =>
    by_cases hk : kv.1 = k
    · simp [alist_erase, hk, alist_find, Ne.symm h]
    · by_cases hk' : kv.1 = k' <;>
        simp [alist_erase, hk, alist_find, hk', ih, h]

theorem alist_erase_sublist {α : Type} (l : List (String × α)) (k : String) :
    (alist_erase l k).Sublist l := by
  induction l with
  | nil => simp [alist_erase]
  | cons kv rest ih =>
    by_cases hk : kv.1 = k
    · simp only [alist_erase, hk, if_pos]
      exact List.sublist_cons_self kv rest
    · simp only [alist_erase, hk, if_neg, not_false_iff]
      exact List.Sublist.cons₂ kv ih

theorem alist_erase_length {α : Type} (l : List (String × α)) (k : String)
    (v : α) (h : alist_find l k = some v) :
    (alist_erase l k).length + 1 = l.length := by
  induction l with
  | nil => simp [alist_find] at h
  | cons kv rest ih =>
    by_cases hk : kv.1 = k
    · simp [alist_erase, hk]
    · simp only [alist_find, hk, if_neg, not_false_iff] at h
      simp [alist_erase, hk, ih h]

theorem open_long_ok_iff (p : Portfolio) (t : String) (price : ℚ) :
    (p.open_long_position t price).2 = true ↔
      p.can_open_position = true ∧ alist_find p.positions t = none := by
  unfold Portfolio.open_long_position
  by_cases h1 : p.can_open_position
  · cases h2 : alist_find p.positions t <;> simp [h1, h2]
  · simp [h1]

theorem open_short_ok_iff (p : Portfolio) (t : String) (price : ℚ) :
    (p.open_short_position t price).2 = true ↔
      p.can_open_position = true ∧ alist_find p.positions t = none := by
  unfold Portfolio.open_short_position
  by_cases h1 : p.can_open_position
  · cases h2 : alist_find p.positions t <;> simp [h1, h2]
  · simp [h1]

theorem open_long_eq_of_ok (p : Portfolio) (t : String) (price : ℚ)
    (h1 : p.can_open_position = true) (h2 : alist_find p.positions t = none) :
    p.open_long_position t price =
      ({ cash := p.cash - POSITION_SIZE,
         positions := p.positions ++
           [(t, { ticker := t, position_type := PositionType.long,
                  entry_price := price, quantity := POSITION_SIZE / price,
                  stop_loss := price * (1 + STOP_LOSS),
                  take_profit := price * (1 + TAKE_PROFIT) })],
         trades := p.trades ++
           [{ ticker := t, action := "BUY", price := price,
              quantity := POSITION_SIZE / price, profit_loss := 0,
              reason := "Price dropped 5% - buying opportunity" }] }, true) := by
  simp [Portfolio.open_long_position, h1, h2]

theorem open_short_eq_of_ok (p : Portfolio) (t : String) (price : ℚ)
    (h1 : p.can_open_position = true) (h2 : alist_find p.positions t = none) :
    p.open_short_position t price =
      ({ cash := p.cash - POSITION_SIZE,
         positions := p.positions ++
           [(t, { ticker := t, position_type := PositionType.short,
                  entry_price := price, quantity := POSITION_SIZE / price,
                  stop_loss := price * (1 - STOP_LOSS),
                  take_profit := price * (1 - TAKE_PROFIT) })],
         trades := p.trades ++
           [{ ticker := t, action := "SHORT", price := price,
              quantity := POSITION_SIZE / price, profit_loss := 0,
              reason := "Price jumped 10% - shorting opportunity" }] }, true) := by
  simp [Portfolio.open_short_position, h1, h2]

theorem open_long_eq_of_some (p : Portfolio) (t : String) (price : ℚ)
    (v : Position) (h : alist_find p.positions t = some v) :
    p.open_long_position t price = (p, false) := by
  unfold Portfolio.open_long_position
  by_cases h1 : p.can_open_position <;> simp [h1, h]

theorem open_short_eq_of_some (p : Portfolio) (t : String) (price : ℚ)
    (v : Position) (h : alist_find p.positions t = some v) :
    p.open_short_position t price = (p, false) := by
  unfold Portfolio.open_short_position
  by_cases h1 : p.can_open_position <;> simp [h1, h]

theorem open_long_fst_of_not_ok (p : Portfolio) (t : String) (price : ℚ)
    (h : ¬ ((p.open_long_position t price).2 = true)) :
    (p.open_long_position t price).1 = p := by
  unfold Portfolio.open_long_position at *
  by_cases h1 : p.can_open_position
  · cases h2 : alist_find p.positions t <;> simp [h1, h2] at *
  · simp [h1]

theorem open_short_fst_of_not_ok (p : Portfolio) (t : String) (price : ℚ)
    (h : ¬ ((p.open_short_position t price).2 = true)) :
    (p.open_short_position t price).1 = p := by
  unfold Portfolio.open_short_position at *
  by_cases h1 : p.can_open_position
  · cases h2 : alist_find p.positions t <;> simp [h1, h2] at *
  · simp [h1]

theorem close_position_eq_of_none (p : Portfolio) (t : String) (price : ℚ)
    (r : String) (h : alist_find p.positions t = none) :
    p.close_position t price r = (p, false) := by
  simp [Portfolio.close_position, h]

theorem close_position_eq_of_some (p : Portfolio) (t : String) (price : ℚ)
    (r : String) (pos : Position) (h : alist_find p.positions t = some pos) :
    p.close_position t price r =
      ({ cash := p.cash + (POSITION_SIZE + close_profit pos price),
         positions := alist_erase p.positions t,
         trades := p.trades ++
           [{ ticker := t, action := close_action pos, price := price,
              quantity := pos.quantity, profit_loss := close_profit pos price,
              reason := r }] }, true) := by
  cases hpt : pos.position_type <;>
    simp [Portfolio.close_position, h, close_profit, close_action, hpt]

theorem applyOps_nil (p : Portfolio) : applyOps p [] = p := rfl

theorem applyOps_cons (p : Portfolio) (op : Op) (ops : List Op) :
    applyOps p (op :: ops) = applyOps (applyOp p op) ops := rfl

theorem can_open_position_iff (p : Portfolio) :
    p.can_open_position = true ↔
      POSITION_SIZE ≤ p.cash ∧ p.positions.length < MAX_POSITIONS := by
  simp [Portfolio.can_open_position]

theorem applyOp_keys_nodup (p : Portfolio) (op : Op)
    (h : (p.positions.map Prod.fst).Nodup) :
    ((applyOp p op).positions.map Prod.fst).Nodup := by
  cases op with
  | openLong t price =>
    by_cases hok : (p.open_long_position t price).2 = true
    · obtain ⟨h1, h2⟩ := (open_long_ok_iff p t price).1 hok
      simp only [applyOp, open_long_eq_of_ok p t price h1 h2]
      rw [List.map_append]
      refine List.Nodup.append h (List.nodup_singleton _) ?_
      simp only [List.map_cons, List.map_nil, List.disjoint_singleton]
      exact (alist_find_eq_none_iff _ _).1 h2
    · simp [applyOp, open_long_fst_of_not_ok p t price hok, h]
  | openShort t price =>
    by_cases hok : (p.open_short_position t price).2 = true
    · obtain ⟨h1, h2⟩ := (open_short_ok_iff p t price).1 hok
      simp only [applyOp, open_short_eq_of_ok p t price h1 h2]
      rw [List.map_append]
      refine List.Nodup.append h (List.nodup_singleton _) ?_
      simp only [List.map_cons, List.map_nil, List.disjoint_singleton]
      exact (alist_find_eq_none_iff _ _).1 h2
    · simp [applyOp, open_short_fst_of_not_ok p t price hok, h]
  | closePos t price r =>
    cases hf : alist_find p.positions t with
    | none => simp [applyOp, close_position_eq_of_none p t price r hf, h]
    | some pos =>
      simp only [applyOp, close_position_eq_of_some p t price r pos hf]
      exact List.Nodup.sublist
        (List.Sublist.map Prod.fst (alist_erase_sublist p.positions t)) h

theorem applyOps_keys_nodup (p : Portfolio) (ops : List Op)
    (h : (p.positions.map Prod.fst).Nodup) :
    ((applyOps p ops).positions.map Prod.fst).Nodup := by
  induction ops generalizing p with
  | nil => exact h
  | cons op rest ih => exact ih (applyOp p op) (applyOp_keys_nodup p op h)

theorem applyOp_length_le (p : Portfolio) (op : Op)
    (h : p.positions.length ≤ MAX_POSITIONS) :
    (applyOp p op).positions.length ≤ MAX_POSITIONS := by
  cases op with
  | openLong t price =>
    by_cases hok : (p.open_long_position t price).2 = true
    · obtain ⟨h1, h2⟩ := (open_long_ok_iff p t price).1 hok
      have hlt := ((can_open_position_iff p).1 h1).2
      simp only [applyOp, open_long_eq_of_ok p t price h1 h2, List.length_append,
        List.length_singleton]
      omega
    · simp [applyOp, open_long_fst_of_not_ok p t price hok, h]
  | openShort t price =>
    by_cases hok : (p.open_short_position t price).2 = true
    · obtain ⟨h1, h2⟩ := (open_short_ok_iff p t price).1 hok
      have hlt := ((can_open_position_iff p).1 h1).2
      simp only [applyOp, open_short_eq_of_ok p t price h1 h2, List.length_append,
        List.length_singleton]
      omega
    · simp [applyOp, open_short_fst_of_not_ok p t price hok, h]
  | closePos t price r =>
    cases hf : alist_find p.positions t with
    | none => simp [applyOp, close_position_eq_of_none p t price r hf, h]
    | some pos =>
      simp only [applyOp, close_position_eq_of_some p t price r pos hf]
      have := List.Sublist.length_le (alist_erase_sublist p.positions t)
      omega

theorem applyOps_length_le (p : Portfolio) (ops : List Op)
    (h : p.positions.length ≤ MAX_POSITIONS) :
    (applyOps p ops).positions.length ≤ MAX_POSITIONS := by
  induction ops generalizing p with
  | nil => exact h
  | cons op rest ih => exact ih (applyOp p op) (applyOp_length_le p op h)

/-- The global accounting equation of claim C10: cash plus the reserved
budget of each open position equals the initial budget plus all recorded
realized profit/loss. -/
def conserved (p : Portfolio) : Prop :=
  p.cash + POSITION_SIZE * (p.positions.length : ℚ) =
    INITIAL_BUDGET + (p.trades.map Trade.profit_loss).sum

theorem applyOp_conserved (p : Portfolio) (op : Op) (h : conserved p) :
    conserved (applyOp p op) := by
  cases op with
  | openLong t price =>
    by_cases hok : (p.open_long_position t price).2 = true
    · obtain ⟨h1, h2⟩ := (open_long_ok_iff p t price).1 hok
      simp only [applyOp, open_long_eq_of_ok p t price h1 h2]
      unfold conserved at *
      simp only [List.map_append, List.sum_append, List.length_append,
        List.length_singleton, List.map_cons, List.map_nil, List.sum_cons,
        List.sum_nil]
      push_cast
      linarith [h]
    · simp [applyOp, open_long_fst_of_not_ok p t price hok, h]
  | openShort t price =>
    by_cases hok : (p.open_short_position t price).2 = true
    · obtain ⟨h1, h2⟩ := (open_short_ok_iff p t price).1 hok
      simp only [applyOp, open_short_eq_of_ok p t price h1 h2]
      unfold conserved at *
      simp only [List.map_append, List.sum_append, List.length_append,
        List.length_singleton, List.map_cons, List.map_nil, List.sum_cons,
        List.sum_nil]
      push_cast
      linarith [h]
    · simp [applyOp, open_short_fst_of_not_ok p t price hok, h]
  | closePos t price r =>
    cases hf : alist_find p.positions t with
    | none => simp [applyOp, close_position_eq_of_none p t price r hf, h]
    | some pos =>
      simp only [applyOp, close_position_eq_of_some p t price r pos hf]
      unfold conserved at *
      have hlen := alist_erase_length p.positions t pos hf
      have hlenq : ((p.positions.length : ℚ)) =
          ((alist_erase p.positions t).length : ℚ) + 1 := by
        exact_mod_cast hlen.symm
      simp only [List.map_append, List.sum_append, List.map_cons, List.map_nil,
        List.sum_cons, List.sum_nil]
      rw [hlenq] at h
      linarith [h]

theorem applyOps_conserved (p : Portfolio) (ops : List Op) (h : conserved p) :
    conserved (applyOps p ops) := by
  induction ops generalizing p with
  | nil => exact h
  | cons op rest ih => exact ih (applyOp p op) (applyOp_conserved p op h)

theorem conserved_initial : conserved initial_portfolio := by
  simp [conserved, initial_portfolio]

/-- A sample open LONG position on ticker X, as opened at entry price 100
(quantity 10/100, stop 95, take profit 103), for concrete instantiations. -/
def sample_position : Position :=
  { ticker := "X", position_type := PositionType.long, entry_price := 100,
    quantity := 1 / 10, stop_loss := 95, take_profit := 103 }

/-- A sample portfolio holding only the X position, cash 990. -/
def sample_portfolio : Portfolio :=
  { cash := 990, positions := [("X", sample_position)], trades := [] }

/-- C2: opening a ticker that already has an open position fails (returns
false) in both directions and leaves the whole portfolio state unchanged;
and every operation sequence preserves distinctness of the open-position
tickers, so a ticker never has two simultaneously open positions. -/
theorem open_on_held_ticker_fails_and_unique :
    (∀ (p : Portfolio) (t : String) (price : ℚ) (v : Position),
      alist_find p.positions t = some v →
      p.open_long_position t price = (p, false) ∧
      p.open_short_position t price = (p, false)) ∧
    (∀ (p : Portfolio) (ops : List Op),
      (p.positions.map Prod.fst).Nodup →
      ((applyOps p ops).positions.map Prod.fst).Nodup) :=
  ⟨fun p t price v h => ⟨open_long_eq_of_some p t price v h,
      open_short_eq_of_some p t price v h⟩,
   fun p ops h => applyOps_keys_nodup p ops h⟩

/-- Witness for C2 at a concrete state holding a position on X. -/
theorem open_on_held_ticker_fails_and_unique_witness :
    alist_find sample_portfolio.positions "X" = some sample_position ∧
    (sample_portfolio.positions.map Prod.fst).Nodup ∧
    sample_portfolio.open_long_position "X" 50 = (sample_portfolio, false) ∧
    sample_portfolio.open_short_position "X" 50 = (sample_portfolio, false) ∧
    ((applyOps sample_portfolio [Op.openLong "Y" 20]).positions.map Prod.fst).Nodup := by
  have h : alist_find sample_portfolio.positions "X" = some sample_position := by
    simp [sample_portfolio, alist_find]
  have hnd : (sample_portfolio.positions.map Prod.fst).Nodup := by
    simp [sample_portfolio]
  obtain ⟨h1, h2⟩ :=
    open_on_held_ticker_fails_and_unique.1 sample_portfolio "X" 50 sample_position h
  exact ⟨h, hnd, h1, h2,
    open_on_held_ticker_fails_and_unique.2 sample_portfolio [Op.openLong "Y" 20] hnd⟩

/-- C3: can_open_position is true exactly when cash covers one more
per-position budget and the open-position count is below MAX_POSITIONS;
and no operation sequence starting within the position cap ever exceeds it. -/
theorem can_open_position_spec :
    (∀ p : Portfolio, p.can_open_position = true ↔
      POSITION_SIZE ≤ p.cash ∧ p.positions.length < MAX_POSITIONS) ∧
    (∀ (p : Portfolio) (ops : List Op), p.positions.length ≤ MAX_POSITIONS →
      (applyOps p ops).positions.length ≤ MAX_POSITIONS) :=
  ⟨can_open_position_iff, applyOps_length_le⟩

/-- Witness for C3 starting from the initial empty portfolio. -/
theorem can_open_position_spec_witness :
    (initial_portfolio.can_open_position = true ↔
      POSITION_SIZE ≤ initial_portfolio.cash ∧
      initial_portfolio.positions.length < MAX_POSITIONS) ∧
    initial_portfolio.positions.length ≤ MAX_POSITIONS ∧
    (applyOps initial_portfolio
      [Op.openLong "X" 100, Op.closePos "X" 103 "Take profit reached"]).positions.length ≤
      MAX_POSITIONS := by
  have h0 : initial_portfolio.positions.length ≤ MAX_POSITIONS := by
    simp [initial_portfolio]
  exact ⟨can_open_position_spec.1 initial_portfolio, h0,
    can_open_position_spec.2 initial_portfolio _ h0⟩

/-- C10: every open or close call preserves the global accounting equation
cash + POSITION_SIZE * (open positions) = INITIAL_BUDGET + total recorded
profit/loss, and every state reachable from the initial state satisfies it. -/
theorem conservation_spec :
    (∀ (p : Portfolio) (op : Op), conserved p → conserved (applyOp p op)) ∧
    (∀ ops : List Op, conserved (applyOps initial_portfolio ops)) :=
  ⟨applyOp_conserved,
   fun ops => applyOps_conserved initial_portfolio ops conserved_initial⟩

/-- Witness for C10 on a concrete operation sequence. -/
theorem conservation_spec_witness :
    conserved initial_portfolio ∧
    conserved (applyOp initial_portfolio (Op.openLong "X" 100)) ∧
    conserved (applyOps initial_portfolio
      [Op.openLong "X" 100, Op.openShort "Y" 50,
       Op.closePos "X" 103 "Take profit reached"]) :=
  ⟨by simp [conserved, initial_portfolio],
   conservation_spec.1 initial_portfolio (Op.openLong "X" 100)
     (by simp [conserved, initial_portfolio]),
   conservation_spec.2
     [Op.openLong "X" 100, Op.openShort "Y" 50,
      Op.closePos "X" 103 "Take profit reached"]⟩

theorem tp_ne_sl : ("Take profit reached" : String) ≠ "Stop loss triggered" := by
  decide

/-- C4: for an open position, should_close_position returns the take-profit
reason exactly when the take-profit level is reached (LONG: price at or
above it, SHORT: at or below it), otherwise the stop-loss reason exactly
when the stop-loss level is reached while the take-profit is not (so
take-profit wins when both are satisfied), and no exit when the price is
strictly between the two levels. -/
theorem should_close_position_spec (p : Portfolio) (t : String) (price : ℚ)
    (pos : Position) (h : alist_find p.positions t = some pos) :
    (pos.position_type = PositionType.long →
      ((p.should_close_position t price = some "Take profit reached" ↔
          pos.take_profit ≤ price) ∧
       (p.should_close_position t price = some "Stop loss triggered" ↔
          price ≤ pos.stop_loss ∧ price < pos.take_profit) ∧
       (p.should_close_position t price = none ↔
          pos.stop_loss < price ∧ price < pos.take_profit))) ∧
    (pos.position_type = PositionType.short →
      ((p.should_close_position t price = some "Take profit reached" ↔
          price ≤ pos.take_profit) ∧
       (p.should_close_position t price = some "Stop loss triggered" ↔
          pos.stop_loss ≤ price ∧ pos.take_profit < price) ∧
       (p.should_close_position t price = none ↔
          price < pos.stop_loss ∧ pos.take_profit < price))) := by
  unfold Portfolio.should_close_position
  rw [h]
  dsimp only
  constructor
  · intro hl
    rw [hl]
    dsimp only
    by_cases h1 : pos.take_profit ≤ price
    · have h2 : ¬ price < pos.take_profit := not_lt.2 h1
      simp [h1, tp_ne_sl, h2]
    · have h2 : price < pos.take_profit := not_le.1 h1
      by_cases h3 : price ≤ pos.stop_loss
      · have h4 : ¬ pos.stop_loss < price := not_lt.2 h3
        simp [h1, h3, Ne.symm tp_ne_sl, h2, h4]
      · have h4 : pos.stop_loss < price := not_le.1 h3
        simp [h1, h3, h2, h4]
  · intro hs
    rw [hs]
    dsimp only
    by_cases h1 : price ≤ pos.take_profit
    · have h2 : ¬ pos.take_profit < price := not_lt.2 h1
      simp [h1, tp_ne_sl, h2]
    · have h2 : pos.take_profit < price := not_le.1 h1
      by_cases h3 : pos.stop_loss ≤ price
      · have h4 : ¬ price < pos.stop_loss := not_lt.2 h3
        simp [h1, h3, Ne.symm tp_ne_sl, h2, h4]
      · have h4 : price < pos.stop_loss := not_le.1 h3
        simp [h1, h3, h2, h4]

/-- Witness for C4 on the sample LONG position at a take-profit price. -/
theorem should_close_position_spec_witness :
    alist_find sample_portfolio.positions "X" = some sample_position ∧
    (sample_portfolio.should_close_position "X" 104 = some "Take profit reached" ↔
      sample_position.take_profit ≤ 104) := by
  have h : alist_find sample_portfolio.positions "X" = some sample_position := by
    simp [sample_portfolio, alist_find]
  exact ⟨h,
    ((should_close_position_spec sample_portfolio "X" 104 sample_position h).1 rfl).1⟩

/-- C5: closing an open position realizes (exit − entry) × quantity for
LONG and (entry − exit) × quantity for SHORT, credits cash by the
per-position budget plus that profit, removes the position and appends
exactly one closing trade carrying the profit and reason; closing a ticker
with no open position fails; and the spec's scenario (LONG X at 100 from
the initial budget, closed at 103) yields profit 0.3 and cash 1000.3. -/
theorem close_position_spec :
    (∀ (p : Portfolio) (t : String) (price : ℚ) (r : String) (pos : Position),
      alist_find p.positions t = some pos →
      (p.close_position t price r =
        ({ cash := p.cash + (POSITION_SIZE + close_profit pos price),
           positions := alist_erase p.positions t,
           trades := p.trades ++
             [{ ticker := t, action := close_action pos, price := price,
                quantity := pos.quantity, profit_loss := close_profit pos price,
                reason := r }] }, true)) ∧
      (pos.position_type = PositionType.long →
        close_profit pos price = (price - pos.entry_price) * pos.quantity) ∧
      (pos.position_type = PositionType.short →
        close_profit pos price = (pos.entry_price - price) * pos.quantity)) ∧
    (∀ (p : Portfolio) (t : String) (price : ℚ) (r : String),
      alist_find p.positions t = none → p.close_position t price r = (p, false)) ∧
    ((initial_portfolio.open_long_position "X" 100).1.cash = 990 ∧
     ((initial_portfolio.open_long_position "X" 100).1.close_position "X" 103
        "Take profit reached").1.cash = 10003 / 10 ∧
     ∃ tr : Trade,
       ((initial_portfolio.open_long_position "X" 100).1.close_position "X" 103
          "Take profit reached").1.trades =
         (initial_portfolio.open_long_position "X" 100).1.trades ++ [tr] ∧
       tr.profit_loss = 3 / 10 ∧ tr.reason = "Take profit reached") := by
  refine ⟨?_, ?_, ?_, ?_, ?_⟩
  · intro p t price r pos h
    exact ⟨close_position_eq_of_some p t price r pos h,
      fun hl => by simp [close_profit, hl],
      fun hs => by simp [close_profit, hs]⟩
  · intro p t price r h
    exact close_position_eq_of_none p t price r h
  · norm_num [Portfolio.open_long_position, Portfolio.can_open_position,
      initial_portfolio, alist_find, MAX_POSITIONS_eq, INITIAL_BUDGET, POSITION_SIZE]
  · norm_num [Portfolio.open_long_position, Portfolio.close_position,
      Portfolio.can_open_position, initial_portfolio, alist_find, alist_erase,
      MAX_POSITIONS_eq, INITIAL_BUDGET, POSITION_SIZE, STOP_LOSS, TAKE_PROFIT]
  · refine ⟨Trade.mk "X" "SELL" 103 (1 / 10) (3 / 10) "Take profit reached",
      ?_, by norm_num, rfl⟩
    norm_num [Portfolio.open_long_position, Portfolio.close_position,
      Portfolio.can_open_position, initial_portfolio, alist_find, alist_erase,
      MAX_POSITIONS_eq, INITIAL_BUDGET, POSITION_SIZE, STOP_LOSS, TAKE_PROFIT]

/-- Witness for C5: the general clauses instantiated at concrete states. -/
theorem close_position_spec_witness :
    alist_find sample_portfolio.positions "X" = some sample_position ∧
    sample_portfolio.close_position "X" 103 "Take profit reached" =
      ({ cash := sample_portfolio.cash +
           (POSITION_SIZE + close_profit sample_position 103),
         positions := alist_erase sample_portfolio.positions "X",
         trades := sample_portfolio.trades ++
           [{ ticker := "X", action := close_action sample_position, price := 103,
              quantity := sample_position.quantity,
              profit_loss := close_profit sample_position 103,
              reason := "Take profit reached" }] }, true) ∧
    alist_find initial_portfolio.positions "Z" = none ∧
    initial_portfolio.close_position "Z" 50 "no" = (initial_portfolio, false) := by
  have h1 : alist_find sample_portfolio.positions "X" = some sample_position := by
    simp [sample_portfolio, alist_find]
  have h2 : alist_find initial_portfolio.positions "Z" = none := by
    simp [initial_portfolio, alist_find]
  exact ⟨h1,
    (close_position_spec.1 sample_portfolio "X" 103 "Take profit reached"
      sample_position h1).1,
    h2, close_position_spec.2.1 initial_portfolio "Z" 50 "no" h2⟩

/-- C6: a successful open computes quantity = POSITION_SIZE / entry price,
fixed percentage stop/take levels mirrored by direction (LONG: take-profit
above entry, stop-loss below; SHORT: mirrored), debits cash by the budget,
appends one opening trade with zero profit, and inserts the position; with
the spec's concrete examples (LONG at 100: quantity 0.1, stop 95, take 103;
SHORT at 50: quantity 0.2, take 48.5, stop 52.5). -/
theorem open_position_success_spec :
    (∀ (p : Portfolio) (t : String) (price : ℚ),
      p.can_open_position = true → alist_find p.positions t = none →
      p.open_long_position t price =
        ({ cash := p.cash - POSITION_SIZE,
           positions := p.positions ++
             [(t, { ticker := t, position_type := PositionType.long,
                    entry_price := price, quantity := POSITION_SIZE / price,
                    stop_loss := price * (1 + STOP_LOSS),
                    take_profit := price * (1 + TAKE_PROFIT) })],
           trades := p.trades ++
             [{ ticker := t, action := "BUY", price := price,
                quantity := POSITION_SIZE / price, profit_loss := 0,
                reason := "Price dropped 5% - buying opportunity" }] }, true) ∧
      p.open_short_position t price =
        ({ cash := p.cash - POSITION_SIZE,
           positions := p.positions ++
             [(t, { ticker := t, position_type := PositionType.short,
                    entry_price := price, quantity := POSITION_SIZE / price,
                    stop_loss := price * (1 - STOP_LOSS),
                    take_profit := price * (1 - TAKE_PROFIT) })],
           trades := p.trades ++
             [{ ticker := t, action := "SHORT", price := price,
                quantity := POSITION_SIZE / price, profit_loss := 0,
                reason := "Price jumped 10% - shorting opportunity" }] }, true)) ∧
    (∀ price : ℚ, 0 < price →
      price < price * (1 + TAKE_PROFIT) ∧ price * (1 + STOP_LOSS) < price ∧
      price * (1 - TAKE_PROFIT) < price ∧ price < price * (1 - STOP_LOSS)) ∧
    ((initial_portfolio.open_long_position "X" 100).1.positions =
      [("X", Position.mk "X" PositionType.long 100 (1 / 10) 95 103)]) ∧
    ((initial_portfolio.open_short_position "Y" 50).1.positions =
      [("Y", Position.mk "Y" PositionType.short 50 (1 / 5) (105 / 2) (97 / 2))]) := by
  refine ⟨?_, ?_, ?_, ?_⟩
  · intro p t price h1 h2
    exact ⟨open_long_eq_of_ok p t price h1 h2, open_short_eq_of_ok p t price h1 h2⟩
  · intro price hp
    simp only [TAKE_PROFIT, STOP_LOSS]
    refine ⟨by nlinarith [hp], by nlinarith [hp], by nlinarith [hp], by nlinarith [hp]⟩
  · norm_num [Portfolio.open_long_position, Portfolio.can_open_position,
      initial_portfolio, alist_find, MAX_POSITIONS_eq, INITIAL_BUDGET,
      POSITION_SIZE, STOP_LOSS, TAKE_PROFIT]
  · norm_num [Portfolio.open_short_position, Portfolio.can_open_position,
      initial_portfolio, alist_find, MAX_POSITIONS_eq, INITIAL_BUDGET,
      POSITION_SIZE, STOP_LOSS, TAKE_PROFIT]

/-- Witness for C6 at the initial portfolio and entry price 100. -/
theorem open_position_success_spec_witness :
    initial_portfolio.can_open_position = true ∧
    alist_find initial_portfolio.positions "X" = none ∧
    (0 : ℚ) < 100 ∧
    initial_portfolio.open_long_position "X" 100 =
      ({ cash := initial_portfolio.cash - POSITION_SIZE,
         positions := initial_portfolio.positions ++
           [("X", { ticker := "X", position_type := PositionType.long,
                    entry_price := 100, quantity := POSITION_SIZE / 100,
                    stop_loss := 100 * (1 + STOP_LOSS),
                    take_profit := 100 * (1 + TAKE_PROFIT) })],
         trades := initial_portfolio.trades ++
           [{ ticker := "X", action := "BUY", price := 100,
              quantity := POSITION_SIZE / 100, profit_loss := 0,
              reason := "Price dropped 5% - buying opportunity" }] }, true) ∧
    (100 : ℚ) < 100 * (1 + TAKE_PROFIT) := by
  have hco : initial_portfolio.can_open_position = true := by
    norm_num [Portfolio.can_open_position, initial_portfolio, INITIAL_BUDGET,
      POSITION_SIZE, MAX_POSITIONS_eq]
  have hf : alist_find initial_portfolio.positions "X" = none := by
    simp [initial_portfolio, alist_find]
  have h100 : (0 : ℚ) < 100 := by norm_num
  exact ⟨hco, hf, h100,
    (open_position_success_spec.1 initial_portfolio "X" 100 hco hf).1,
    (open_position_success_spec.2.1 100 h100).1⟩

theorem trades_sign_partition (l : List Trade) :
    (l.filter (fun tr => decide (0 < tr.profit_loss))).length +
      (l.filter (fun tr => decide (tr.profit_loss < 0))).length +
      (l.filter (fun tr => decide (tr.profit_loss = 0))).length = l.length := by
  induction l with
  | nil => simp
  | cons tr rest ih =>
    rcases lt_trichotomy tr.profit_loss 0 with h | h | h
    · have h1 : ¬ (0 < tr.profit_loss) := by linarith
      have h2 : ¬ (tr.profit_loss = 0) := by linarith
      simp [List.filter_cons, h, h1, h2]
      omega
    · have h1 : ¬ (0 < tr.profit_loss) := by linarith
      have h2 : ¬ (tr.profit_loss < 0) := by linarith
      simp [List.filter_cons, h, h1, h2]
      omega
    · have h1 : ¬ (tr.profit_loss < 0) := by linarith
      have h2 : ¬ (tr.profit_loss = 0) := by linarith
      simp [List.filter_cons, h, h1, h2]
      omega

/-- C7: the statistics count every trade in total_trades, strictly
profitable trades in profitable_trades and strictly losing ones in
losing_trades (zero-profit trades fall in neither bucket but complete the
total), and win_rate is profitable/total for a nonempty history and 0 for
an empty one. -/
theorem get_statistics_spec (p : Portfolio) :
    p.get_statistics.total_trades = p.trades.length ∧
    p.get_statistics.profitable_trades =
      (p.trades.filter (fun tr => decide (0 < tr.profit_loss))).length ∧
    p.get_statistics.losing_trades =
      (p.trades.filter (fun tr => decide (tr.profit_loss < 0))).length ∧
    p.get_statistics.profitable_trades + p.get_statistics.losing_trades +
      (p.trades.filter (fun tr => decide (tr.profit_loss = 0))).length =
      p.get_statistics.total_trades ∧
    (0 < p.trades.length →
      p.get_statistics.win_rate =
        (p.get_statistics.profitable_trades : ℚ) / (p.trades.length : ℚ)) ∧
    (p.trades.length = 0 → p.get_statistics.win_rate = 0) := by
  refine ⟨rfl, rfl, rfl, ?_, ?_, ?_⟩
  · exact trades_sign_partition p.trades
  · intro h
    simp [Portfolio.get_statistics, h]
  · intro h
    simp [Portfolio.get_statistics, h]

/-- A portfolio whose history holds one opening, one winning and one losing
trade, for concrete statistics instantiations. -/
def sample_history_portfolio : Portfolio :=
  { cash := 1000, positions := [],
    trades := [Trade.mk "X" "BUY" 100 (1 / 10) 0 "open",
               Trade.mk "X" "SELL" 103 (1 / 10) (3 / 10) "Take profit reached",
               Trade.mk "Y" "COVER" 52 (1 / 5) (-(2 / 5)) "Stop loss triggered"] }

/-- Witness for C7 on a three-trade history. -/
theorem get_statistics_spec_witness :
    0 < sample_history_portfolio.trades.length ∧
    sample_history_portfolio.get_statistics.win_rate =
      (sample_history_portfolio.get_statistics.profitable_trades : ℚ) /
        (sample_history_portfolio.trades.length : ℚ) := by
  have h : 0 < sample_history_portfolio.trades.length := by
    simp [sample_history_portfolio]
  exact ⟨h, (get_statistics_spec sample_history_portfolio).2.2.2.2.1 h⟩

/-- C8: the portfolio value is cash plus, per open position: price ×
quantity for a LONG with a known price, reserved budget plus (entry −
price) × quantity for a SHORT with a known price, and exactly the reserved
budget when the price is missing — the whole computation never fails. -/
theorem get_portfolio_value_spec (p : Portfolio) (prices : List (String × ℚ)) :
    p.get_portfolio_value prices =
      p.cash + (p.positions.map (fun kv =>
        match alist_find prices kv.1 with
        | some cp =>
          match kv.2.position_type with
          | PositionType.long => cp * kv.2.quantity
          | PositionType.short =>
              POSITION_SIZE + (kv.2.entry_price - cp) * kv.2.quantity
        | none => POSITION_SIZE)).sum ∧
    (∀ (pos : Position) (cp : ℚ),
      (pos.position_type = PositionType.long →
        position_value pos (some cp) = cp * pos.quantity) ∧
      (pos.position_type = PositionType.short →
        position_value pos (some cp) =
          POSITION_SIZE + (pos.entry_price - cp) * pos.quantity)) ∧
    (∀ pos : Position, position_value pos none = POSITION_SIZE) := by
  refine ⟨rfl, ?_, fun pos => rfl⟩
  intro pos cp
  exact ⟨fun hl => by simp [position_value, hl], fun hs => by simp [position_value, hs]⟩

/-- Witness for C8 on the sample portfolio with a partial price mapping. -/
theorem get_portfolio_value_spec_witness :
    sample_position.position_type = PositionType.long ∧
    position_value sample_position (some 101) = 101 * sample_position.quantity := by
  exact ⟨rfl, ((get_portfolio_value_spec sample_portfolio []).2.1 sample_position 101).1 rfl⟩

theorem applyOp_find_ne (p : Portfolio) (op : Op) (t : String)
    (h : op.ticker ≠ t) :
    alist_find (applyOp p op).positions t = alist_find p.positions t := by
  cases op with
  | openLong t2 price =>
    have ht : t2 ≠ t := h
    by_cases hok : (p.open_long_position t2 price).2 = true
    · obtain ⟨h1, h2⟩ := (open_long_ok_iff p t2 price).1 hok
      simp only [applyOp, open_long_eq_of_ok p t2 price h1 h2]
      rw [alist_find_append]
      cases hf : alist_find p.positions t <;> simp [hf, alist_find, ht]
    · simp [applyOp, open_long_fst_of_not_ok p t2 price hok]
  | openShort t2 price =>
    have ht : t2 ≠ t := h
    by_cases hok : (p.open_short_position t2 price).2 = true
    · obtain ⟨h1, h2⟩ := (open_short_ok_iff p t2 price).1 hok
      simp only [applyOp, open_short_eq_of_ok p t2 price h1 h2]
      rw [alist_find_append]
      cases hf : alist_find p.positions t <;> simp [hf, alist_find, ht]
    · simp [applyOp, open_short_fst_of_not_ok p t2 price hok]
  | closePos t2 price r =>
    have ht : t2 ≠ t := h
    cases hf : alist_find p.positions t2 with
    | none => simp [applyOp, close_position_eq_of_none p t2 price r hf]
    | some pos =>
      simp only [applyOp, close_position_eq_of_some p t2 price r pos hf]
      exact alist_erase_find_ne p.positions t2 t (Ne.symm ht)

theorem applyOps_find_ne (p : Portfolio) (ops : List Op) (t : String)
    (h : ∀ op ∈ ops, op.ticker ≠ t) :
    alist_find (applyOps p ops).positions t = alist_find p.positions t := by
  induction ops generalizing p with
  | nil => rfl
  | cons op rest ih =>
    rw [applyOps_cons,
      ih (applyOp p op) (fun o ho => h o (List.mem_cons_of_mem _ ho)),
      applyOp_find_ne p op t (h op (List.mem_cons_self _ _))]

theorem open_position_ok_parts (dir : PositionType) (p : Portfolio) (t : String)
    (price : ℚ) (hok : (open_position dir p t price).2 = true) :
    (open_position dir p t price).1.cash = p.cash - POSITION_SIZE ∧
    ∃ pos : Position,
      alist_find (open_position dir p t price).1.positions t = some pos := by
  cases dir with
  | long =>
    obtain ⟨h1, h2⟩ := (open_long_ok_iff p t price).1 hok
    rw [open_position, open_long_eq_of_ok p t price h1 h2]
    have hfind : alist_find (p.positions ++
        [(t, Position.mk t PositionType.long price (POSITION_SIZE / price)
            (price * (1 + STOP_LOSS)) (price * (1 + TAKE_PROFIT)))]) t =
        some (Position.mk t PositionType.long price (POSITION_SIZE / price)
          (price * (1 + STOP_LOSS)) (price * (1 + TAKE_PROFIT))) := by
      rw [alist_find_append, h2]
      simp [alist_find]
    exact ⟨rfl, _, hfind⟩
  | short =>
    obtain ⟨h1, h2⟩ := (open_short_ok_iff p t price).1 hok
    rw [open_position, open_short_eq_of_ok p t price h1 h2]
    have hfind : alist_find (p.positions ++
        [(t, Position.mk t PositionType.short price (POSITION_SIZE / price)
            (price * (1 - STOP_LOSS)) (price * (1 - TAKE_PROFIT)))]) t =
        some (Position.mk t PositionType.short price (POSITION_SIZE / price)
          (price * (1 - STOP_LOSS)) (price * (1 - TAKE_PROFIT))) := by
      rw [alist_find_append, h2]
      simp [alist_find]
    exact ⟨rfl, _, hfind⟩

/-- C1 (amended): for a successful open of either direction followed, after
any interleaved operations on other tickers, by a close of that ticker, the
close succeeds, appends exactly one closing trade, and the final cash is
the cash before the open plus that trade's profit_loss plus the net cash
change of the interleaved operations (zero when there are none). -/
theorem round_trip_cash_spec (dir : PositionType) (p0 : Portfolio) (t : String)
    (entry exitp : ℚ) (r : String) (ops : List Op)
    (hok : (open_position dir p0 t entry).2 = true)
    (hops : ∀ op ∈ ops, op.ticker ≠ t) :
    ((applyOps (open_position dir p0 t entry).1 ops).close_position t exitp r).2 =
      true ∧
    ∃ tr : Trade,
      ((applyOps (open_position dir p0 t entry).1 ops).close_position t exitp
          r).1.trades =
        (applyOps (open_position dir p0 t entry).1 ops).trades ++ [tr] ∧
      ((applyOps (open_position dir p0 t entry).1 ops).close_position t exitp
          r).1.cash =
        p0.cash + tr.profit_loss +
          ((applyOps (open_position dir p0 t entry).1 ops).cash -
            (open_position dir p0 t entry).1.cash) := by
  obtain ⟨hcash, pos, hfind1⟩ := open_position_ok_parts dir p0 t entry hok
  have hfind2 :
      alist_find (applyOps (open_position dir p0 t entry).1 ops).positions t =
        some pos := by
    rw [applyOps_find_ne (open_position dir p0 t entry).1 ops t hops]
    exact hfind1
  have hclose := close_position_eq_of_some
    (applyOps (open_position dir p0 t entry).1 ops) t exitp r pos hfind2
  constructor
  · rw [hclose]
  · refine ⟨Trade.mk t (close_action pos) exitp pos.quantity
      (close_profit pos exitp) r, ?_, ?_⟩
    · rw [hclose]
    · rw [hclose]
      dsimp only
      rw [hcash]
      ring

/-- Counterexample to C1 as stated: open LONG X at 100 from the initial
1000 cash, interleave an open LONG Y at 50, close X at 100; the closing
trade's profit_loss is 0 but the final cash is 990, not 1000 + 0 — the
claimed equality fails in the presence of interleaved operations. -/
theorem round_trip_cash_counterexample :
    (open_position PositionType.long initial_portfolio "X" 100).2 = true ∧
    (Op.openLong "Y" 50).ticker ≠ "X" ∧
    ((applyOps (open_position PositionType.long initial_portfolio "X" 100).1
        [Op.openLong "Y" 50]).close_position "X" 100 "manual close").2 = true ∧
    (∃ tr : Trade,
      ((applyOps (open_position PositionType.long initial_portfolio "X" 100).1
          [Op.openLong "Y" 50]).close_position "X" 100 "manual close").1.trades =
        (applyOps (open_position PositionType.long initial_portfolio "X" 100).1
          [Op.openLong "Y" 50]).trades ++ [tr] ∧
      tr.profit_loss = 0) ∧
    ((applyOps (open_position PositionType.long initial_portfolio "X" 100).1
        [Op.openLong "Y" 50]).close_position "X" 100 "manual close").1.cash = 990 ∧
    initial_portfolio.cash = 1000 ∧
    (990 : ℚ) ≠ 1000 + 0 := by
  have hxy : ¬ (("X" : String) = "Y") := by decide
  refine ⟨?_, ?_, ?_, ?_, ?_, rfl, by norm_num⟩
  · norm_num [open_position, Portfolio.open_long_position,
      Portfolio.can_open_position, initial_portfolio, alist_find,
      MAX_POSITIONS_eq, INITIAL_BUDGET, POSITION_SIZE]
  · simp [Op.ticker]
  · norm_num [applyOps, applyOp, List.foldl, open_position,
      Portfolio.open_long_position, Portfolio.close_position,
      Portfolio.can_open_position, initial_portfolio, alist_find, alist_erase,
      MAX_POSITIONS_eq, INITIAL_BUDGET, POSITION_SIZE, STOP_LOSS, TAKE_PROFIT, hxy]
  · refine ⟨Trade.mk "X" "SELL" 100 (1 / 10) 0 "manual close", ?_, rfl⟩
    norm_num [applyOps, applyOp, List.foldl, open_position,
      Portfolio.open_long_position, Portfolio.close_position,
      Portfolio.can_open_position, initial_portfolio, alist_find, alist_erase,
      MAX_POSITIONS_eq, INITIAL_BUDGET, POSITION_SIZE, STOP_LOSS, TAKE_PROFIT, hxy]
  · norm_num [applyOps, applyOp, List.foldl, open_position,
      Portfolio.open_long_position, Portfolio.close_position,
      Portfolio.can_open_position, initial_portfolio, alist_find, alist_erase,
      MAX_POSITIONS_eq, INITIAL_BUDGET, POSITION_SIZE, STOP_LOSS, TAKE_PROFIT, hxy]

/-- Witness for C1 (amended) with no interleaved operations. -/
theorem round_trip_cash_spec_witness :
    (open_position PositionType.long initial_portfolio "X" 100).2 = true ∧
    (∀ op ∈ ([] : List Op), op.ticker ≠ "X") ∧
    (((applyOps (open_position PositionType.long initial_portfolio "X" 100).1
        []).close_position "X" 103 "Take profit reached").2 = true ∧
     ∃ tr : Trade,
       ((applyOps (open_position PositionType.long initial_portfolio "X" 100).1
           []).close_position "X" 103 "Take profit reached").1.trades =
         (applyOps (open_position PositionType.long initial_portfolio "X" 100).1
           []).trades ++ [tr] ∧
       ((applyOps (open_position PositionType.long initial_portfolio "X" 100).1
           []).close_position "X" 103 "Take profit reached").1.cash =
         initial_portfolio.cash + tr.profit_loss +
           ((applyOps (open_position PositionType.long initial_portfolio "X"
               100).1 []).cash -
             (open_position PositionType.long initial_portfolio "X" 100).1.cash)) := by
  have hok : (open_position PositionType.long initial_portfolio "X" 100).2 = true := by
    norm_num [open_position, Portfolio.open_long_position,
      Portfolio.can_open_position, initial_portfolio, alist_find,
      MAX_POSITIONS_eq, INITIAL_BUDGET, POSITION_SIZE]
  have hops : ∀ op ∈ ([] : List Op), op.ticker ≠ "X" := by simp
  exact ⟨hok, hops, round_trip_cash_spec PositionType.long initial_portfolio "X"
    100 103 "Take profit reached" [] hok hops⟩

theorem close_position_trades_suffix (p : Portfolio) (t : String) (price : ℚ)
    (r : String) :
    ∃ s : List Trade, (p.close_position t price r).1.trades = p.trades ++ s ∧
      ∀ tr ∈ s, tr.action = "SELL" ∨ tr.action = "COVER" := by
  cases hf : alist_find p.positions t with
  | none =>
    refine ⟨[], ?_, by simp⟩
    simp [close_position_eq_of_none p t price r hf]
  | some pos =>
    refine ⟨[Trade.mk t (close_action pos) price pos.quantity
      (close_profit pos price) r], ?_, ?_⟩
    · simp [close_position_eq_of_some p t price r pos hf]
    · intro tr htr
      simp only [List.mem_singleton] at htr
      subst htr
      cases hpt : pos.position_type
      · exact Or.inl (by simp [close_action, hpt])
      · exact Or.inr (by simp [close_action, hpt])

theorem close_fold_trades (p : Portfolio) (l : List (String × ℚ × String)) :
    ∃ s : List Trade,
      (l.foldl (fun q c => (q.close_position c.1 c.2.1 c.2.2).1) p).trades =
        p.trades ++ s ∧
      ∀ tr ∈ s, tr.action = "SELL" ∨ tr.action = "COVER" := by
  induction l generalizing p with
  | nil => exact ⟨[], by simp, by simp⟩
  | cons c rest ih =>
    obtain ⟨s1, hs1, ha1⟩ := close_position_trades_suffix p c.1 c.2.1 c.2.2
    obtain ⟨s2, hs2, ha2⟩ := ih (p.close_position c.1 c.2.1 c.2.2).1
    refine ⟨s1 ++ s2, ?_, ?_⟩
    · rw [List.foldl_cons, hs2, hs1, List.append_assoc]
    · intro tr htr
      rcases List.mem_append.1 htr with h | h
      exacts [ha1 tr h, ha2 tr h]

theorem check_exit_conditions_trades (port : Portfolio) (md : MarketData) :
    ∃ s : List Trade,
      (check_exit_conditions port md).trades = port.trades ++ s ∧
      ∀ tr ∈ s, tr.action = "SELL" ∨ tr.action = "COVER" :=
  close_fold_trades port (positions_to_close port md)

theorem open_long_trades_suffix (p : Portfolio) (t : String) (price : ℚ) :
    ∃ s : List Trade, (p.open_long_position t price).1.trades = p.trades ++ s ∧
      ∀ tr ∈ s, tr.action = "BUY" ∨ tr.action = "SHORT" := by
  by_cases hok : (p.open_long_position t price).2 = true
  · obtain ⟨h1, h2⟩ := (open_long_ok_iff p t price).1 hok
    refine ⟨[Trade.mk t "BUY" price (POSITION_SIZE / price) 0
      "Price dropped 5% - buying opportunity"], ?_, ?_⟩
    · simp [open_long_eq_of_ok p t price h1 h2]
    · intro tr htr
      simp only [List.mem_singleton] at htr
      subst htr
      exact Or.inl rfl
  · refine ⟨[], ?_, by simp⟩
    simp [open_long_fst_of_not_ok p t price hok]

theorem open_short_trades_suffix (p : Portfolio) (t : String) (price : ℚ) :
    ∃ s : List Trade, (p.open_short_position t price).1.trades = p.trades ++ s ∧
      ∀ tr ∈ s, tr.action = "BUY" ∨ tr.action = "SHORT" := by
  by_cases hok : (p.open_short_position t price).2 = true
  · obtain ⟨h1, h2⟩ := (open_short_ok_iff p t price).1 hok
    refine ⟨[Trade.mk t "SHORT" price (POSITION_SIZE / price) 0
      "Price jumped 10% - shorting opportunity"], ?_, ?_⟩
    · simp [open_short_eq_of_ok p t price h1 h2]
    · intro tr htr
      simp only [List.mem_singleton] at htr
      subst htr
      exact Or.inr rfl
  · refine ⟨[], ?_, by simp⟩
    simp [open_short_fst_of_not_ok p t price hok]

theorem execute_long_trades_suffix (md : MarketData) (p : Portfolio)
    (l : List String) :
    ∃ s : List Trade, (execute_long_trades md p l).trades = p.trades ++ s ∧
      ∀ tr ∈ s, tr.action = "BUY" ∨ tr.action = "SHORT" := by
  induction l generalizing p with
  | nil => exact ⟨[], by simp [execute_long_trades], by simp⟩
  | cons ticker rest ih =>
    rw [execute_long_trades]
    by_cases hco : p.can_open_position
    · rw [if_neg (by simp [hco])]
      cases hf : fetched_price md ticker with
      | none => exact ih p
      | some cp =>
        obtain ⟨s1, hs1, ha1⟩ := open_long_trades_suffix p ticker cp
        obtain ⟨s2, hs2, ha2⟩ := ih (p.open_long_position ticker cp).1
        refine ⟨s1 ++ s2, ?_, ?_⟩
        · rw [hs2, hs1, List.append_assoc]
        · intro tr htr
          rcases List.mem_append.1 htr with h | h
          exacts [ha1 tr h, ha2 tr h]
    · rw [if_pos (by simp [hco])]
      exact ⟨[], by simp, by simp⟩

theorem execute_short_trades_suffix (md : MarketData) (p : Portfolio)
    (l : List String) :
    ∃ s : List Trade, (execute_short_trades md p l).trades = p.trades ++ s ∧
      ∀ tr ∈ s, tr.action = "BUY" ∨ tr.action = "SHORT" := by
  induction l generalizing p with
  | nil => exact ⟨[], by simp [execute_short_trades], by simp⟩
  | cons ticker rest ih =>
    rw [execute_short_trades]
    by_cases hco : p.can_open_position
    · rw [if_neg (by simp [hco])]
      cases hf : fetched_price md ticker with
      | none => exact ih p
      | some cp =>
        obtain ⟨s1, hs1, ha1⟩ := open_short_trades_suffix p ticker cp
        obtain ⟨s2, hs2, ha2⟩ := ih (p.open_short_position ticker cp).1
        refine ⟨s1 ++ s2, ?_, ?_⟩
        · rw [hs2, hs1, List.append_assoc]
        · intro tr htr
          rcases List.mem_append.1 htr with h | h
          exacts [ha1 tr h, ha2 tr h]
    · rw [if_pos (by simp [hco])]
      exact ⟨[], by simp, by simp⟩

theorem execute_trades_suffix (md : MarketData) (p : Portfolio)
    (lc sc : List String) :
    ∃ s : List Trade, (execute_trades md p lc sc).trades = p.trades ++ s ∧
      ∀ tr ∈ s, tr.action = "BUY" ∨ tr.action = "SHORT" := by
  obtain ⟨s1, hs1, ha1⟩ := execute_long_trades_suffix md p lc
  obtain ⟨s2, hs2, ha2⟩ := execute_short_trades_suffix md
    (execute_long_trades md p lc) sc
  refine ⟨s1 ++ s2, ?_, ?_⟩
  · rw [execute_trades, hs2, hs1, List.append_assoc]
  · intro tr htr
    rcases List.mem_append.1 htr with h | h
    exacts [ha1 tr h, ha2 tr h]

/-- C9 (amended): within one trading cycle the exit checks run before the
entry scan and execution — every trade a cycle appends is a block of
closing trades (SELL/COVER) followed by a block of opening trades
(BUY/SHORT).  A ticker closed by an exit trigger is, however, eligible for
re-entry later in the same cycle. -/
theorem trading_cycle_order_spec (port : Portfolio) (md : MarketData) :
    ∃ closes opens : List Trade,
      (run_trading_cycle port md).trades = port.trades ++ closes ++ opens ∧
      (∀ tr ∈ closes, tr.action = "SELL" ∨ tr.action = "COVER") ∧
      (∀ tr ∈ opens, tr.action = "BUY" ∨ tr.action = "SHORT") := by
  obtain ⟨closes, hc, hac⟩ := check_exit_conditions_trades port md
  obtain ⟨opens, ho, hao⟩ := execute_trades_suffix md
    (check_exit_conditions port md)
    (scan_for_opportunities (check_exit_conditions port md) md).1
    (scan_for_opportunities (check_exit_conditions port md) md).2
  refine ⟨closes, opens, ?_, hac, hao⟩
  show (execute_trades md (check_exit_conditions port md)
      (scan_for_opportunities (check_exit_conditions port md) md).1
      (scan_for_opportunities (check_exit_conditions port md) md).2).trades = _
  rw [ho, hc, List.append_assoc]

/-- Market data under which a stop-loss exit on X is followed by a fresh
long entry on X within the same cycle: the 7-day change is -10% and the
current price 90 is below the sample position's stop loss of 95. -/
def reentry_md : MarketData :=
  { tickers := ["X"],
    stock_data := fun t =>
      if t = "X" then some [100, 100, 100, 100, 100, 100, 100, 90] else none,
    current_price := fun t => if t = "X" then some 90 else none }

/-- Counterexample to C9 as stated: running one cycle on the sample
portfolio closes X by the stop-loss trigger and then re-opens a LONG
position on X in the same cycle, so a ticker can be both closed by an exit
trigger and re-entered within one cycle. -/
theorem trading_cycle_reentry_counterexample :
    ((run_trading_cycle sample_portfolio reentry_md).trades.map
        (fun tr => (tr.ticker, tr.action, tr.reason))) =
      [("X", "SELL", "Stop loss triggered"),
       ("X", "BUY", "Price dropped 5% - buying opportunity")] ∧
    ((run_trading_cycle sample_portfolio reentry_md).positions.map Prod.fst) =
      ["X"] := by
  have hcpc : calculate_price_change [100, 100, 100, 100, 100, 100, 100, 90]
      7 = some (-(1 / 10)) := by
    have h0 : calculate_price_change [100, 100, 100, 100, 100, 100, 100, 90]
        7 = some ((90 - 100) / 100) := rfl
    rw [h0]
    norm_num
  constructor <;>
    norm_num [run_trading_cycle, check_exit_conditions, positions_to_close,
      scan_for_opportunities, scan_step, execute_trades, execute_long_trades,
      execute_short_trades, fetched_price, hcpc,
      Portfolio.should_close_position, Portfolio.close_position,
      Portfolio.open_long_position, Portfolio.can_open_position,
      sample_portfolio, sample_position, reentry_md, alist_find, alist_erase,
      MAX_POSITIONS_eq, INITIAL_BUDGET, POSITION_SIZE, STOP_LOSS, TAKE_PROFIT,
      SHORT_TRIGGER, BUY_TRIGGER, LOOKBACK_DAYS, List.foldl, List.filterMap]
